import Mathlib

/-!
Shallow embedding of src/index.ts (ts-stagehand-google-cua-agent).

The repository registers two Kernel actions, download-task and
headcount-task.  Each handler is a straight-line asynchronous function:
create a remote browser, initialize Stagehand over its CDP endpoint,
navigate, run a computer-use agent, read the active page URL, fetch the
PDF bytes via in-page evaluation, derive a filename from the URL and
write the bytes to the remote filesystem.

We embed each handler as a function of the inputs and an environment of
external-call outcomes, returning the result (Except, since any awaited
call can throw and nothing is caught) together with the ordered trace of
external effects the handler performed before returning or before the
exception propagated.  Effect constructors also exist for operations the
specification describes (session teardown, CDP download-event
subscription, a timed wait for download completion, resolution of a
completion signal): the embedding emits such an effect wherever the
source performs the corresponding operation.  The source performs none
of them, so they never occur in any trace; their constructors make that
absence statable.
-/

/-- Error value carried by a thrown exception (new Error(message)). -/
structure Err where
  message : String
deriving DecidableEq, Repr

/-- Payload of the download-task action (interface DownloadTaskInput). -/
structure DownloadTaskInput where
  url : String
  instruction : String
  maxSteps : Int
deriving DecidableEq, Repr

/-- Result record of the download-task action (interface DownloadTaskOutput).
It has exactly the four fields of the source interface: there is no
success flag, no resultMessage and no downloadedFilePath field. -/
structure DownloadTaskOutput where
  pdfUrl : String
  filename : String
  remotePath : String
  session_id : String
deriving DecidableEq, Repr

/-- Payload of the headcount-task action (interface SearchQueryInput). -/
structure SearchQueryInput where
  query : String
deriving DecidableEq, Repr

/-- Remote browser handle returned by kernel.browsers.create. -/
structure KernelBrowser where
  session_id : String
  cdp_ws_url : String
  browser_live_view_url : String
deriving DecidableEq, Repr

/-- Page handle; url is the value of the page.url() accessor. -/
structure Page where
  url : String
deriving DecidableEq, Repr

/-- External effects a handler can perform, in program order.  The last
four constructors correspond to operations described by the spec
(teardown, listener registration, timed completion wait, completion
resolution); the embedding would emit them at the point the source
performed such an operation. -/
inductive Effect where
  | browsersCreate (invocation_id : String)
  | stagehandInit (cdp_ws_url : String)
  | pageGoto (url : String)
  | agentExecute (instruction : String) (maxSteps : Int)
  | getActivePage
  | evaluateFetch (url : String)
  | fsWriteFile (session_id : String) (path : String)
  | destroySession (session_id : String)
  | cdpSubscribe (event : String)
  | waitWithTimeout (ms : Nat)
  | resolveCompletion
deriving DecidableEq, Repr

/-- Outcomes of the external calls a handler awaits, fixed per run. -/
structure Env where
  browsersCreate : Except Err KernelBrowser
  stagehandInit : Except Err Unit
  pageGoto : Except Err Unit
  agentExecute : Except Err Unit
  activePage : Option Page
  evaluateFetch : Except Err (List Nat)
  fsWriteFile : Except Err Unit

/-- Value of the DOWNLOAD_DIR constant. -/
def DOWNLOAD_DIR : String := "/tmp/downloads"

/-- Embedding of the JavaScript String.prototype.split for a single
character separator, on character lists: url.split(sep) returns the list
of (possibly empty) chunks between occurrences of sep; splitting the
empty string yields one empty chunk. -/
def jsSplit (sep : Char) : List Char → List (List Char)
  | [] => [[]]
  | c :: cs =>
    if c = sep then [] :: jsSplit sep cs
    else
      match jsSplit sep cs with
      | [] => [[c]]
      | p :: ps => (c :: p) :: ps

/-- Embedding of the filename derivation at src/index.ts lines 118 and
247: pdfUrl.split(slash).pop() followed by the fallback, i.e. the last
chunk of the split when it is non-empty and otherwise download.pdf. -/
def extractFilename (url : String) : String :=
  let last := (jsSplit '/' url.toList).getLastD []
  if last = [] then "download.pdf" else String.mk last

/-- Embedding of the remote path construction at lines 119 and 248. -/
def remotePathOf (url : String) : String :=
  DOWNLOAD_DIR ++ "/" ++ extractFilename url

/-- Embedding of the download-task handler (src/index.ts lines 37-140).
Validation uses JavaScript falsiness: a missing payload, an empty url or
instruction string, or maxSteps equal to 0 all fail the required-fields
check before any external call.  After validation the handler is a
straight line of awaited calls; any error outcome propagates at once
(there is no try/catch and no cleanup), and the trace records exactly
the effects performed up to that point. -/
def downloadTask (invocation_id : String) (payload : Option DownloadTaskInput)
    (env : Env) : Except Err DownloadTaskOutput × List Effect :=
  match payload with
  | none => (.error ⟨"url, instruction, and maxSteps are required"⟩, [])
  | some p =>
    if p.url = "" ∨ p.instruction = "" ∨ p.maxSteps = 0 then
      (.error ⟨"url, instruction, and maxSteps are required"⟩, [])
    else
      match env.browsersCreate with
      | .error e => (.error e, [.browsersCreate invocation_id])
      | .ok kernelBrowser =>
        match env.stagehandInit with
        | .error e =>
          (.error e,
           [.browsersCreate invocation_id, .stagehandInit kernelBrowser.cdp_ws_url])
        | .ok _ =>
          match env.pageGoto with
          | .error e =>
            (.error e,
             [.browsersCreate invocation_id, .stagehandInit kernelBrowser.cdp_ws_url,
              .pageGoto p.url])
          | .ok _ =>
            match env.agentExecute with
            | .error e =>
              (.error e,
               [.browsersCreate invocation_id, .stagehandInit kernelBrowser.cdp_ws_url,
                .pageGoto p.url, .agentExecute p.instruction p.maxSteps])
            | .ok _ =>
              match env.activePage with
              | none =>
                (.error ⟨"No active page found after agent execution"⟩,
                 [.browsersCreate invocation_id, .stagehandInit kernelBrowser.cdp_ws_url,
                  .pageGoto p.url, .agentExecute p.instruction p.maxSteps,
                  .getActivePage])
              | some pdfPage =>
                match env.evaluateFetch with
                | .error e =>
                  (.error e,
                   [.browsersCreate invocation_id, .stagehandInit kernelBrowser.cdp_ws_url,
                    .pageGoto p.url, .agentExecute p.instruction p.maxSteps,
                    .getActivePage, .evaluateFetch pdfPage.url])
                | .ok _ =>
                  match env.fsWriteFile with
                  | .error e =>
                    (.error e,
                     [.browsersCreate invocation_id, .stagehandInit kernelBrowser.cdp_ws_url,
                      .pageGoto p.url, .agentExecute p.instruction p.maxSteps,
                      .getActivePage, .evaluateFetch pdfPage.url,
                      .fsWriteFile kernelBrowser.session_id (remotePathOf pdfPage.url)])
                  | .ok _ =>
                    (.ok { pdfUrl := pdfPage.url,
                           filename := extractFilename pdfPage.url,
                           remotePath := remotePathOf pdfPage.url,
                           session_id := kernelBrowser.session_id },
                     [.browsersCreate invocation_id, .stagehandInit kernelBrowser.cdp_ws_url,
                      .pageGoto p.url, .agentExecute p.instruction p.maxSteps,
                      .getActivePage, .evaluateFetch pdfPage.url,
                      .fsWriteFile kernelBrowser.session_id (remotePathOf pdfPage.url)])

/-- Hardcoded navigation target of the headcount-task handler (line 206). -/
def headcountUrl : String := "https://dvins.com/Group.htm"

/-- Hardcoded agent instruction of the headcount-task handler (line 221). -/
def headcountInstruction : String :=
  "Click the link containing the text \"Click here for a combined Dental and Vision Plan Presentation packet showing all of our plans\". This will navigate to the PDF page."

/-- Embedding of the headcount-task handler (src/index.ts lines 175-269).
The query field is read from the payload with the fallback kernel, but
is never used afterwards; the navigation target, instruction and step
budget are hardcoded.  As in download-task, every error outcome
propagates immediately with no cleanup. -/
def headcountTask (invocation_id : String) (payload : Option SearchQueryInput)
    (env : Env) : Except Err DownloadTaskOutput × List Effect :=
  let _query : String :=
    match payload with
    | none => "kernel"
    | some p => if p.query = "" then "kernel" else p.query
  match env.browsersCreate with
  | .error e => (.error e, [.browsersCreate invocation_id])
  | .ok kernelBrowser =>
    match env.stagehandInit with
    | .error e =>
      (.error e,
       [.browsersCreate invocation_id, .stagehandInit kernelBrowser.cdp_ws_url])
    | .ok _ =>
      match env.pageGoto with
      | .error e =>
        (.error e,
         [.browsersCreate invocation_id, .stagehandInit kernelBrowser.cdp_ws_url,
          .pageGoto headcountUrl])
      | .ok _ =>
        match env.agentExecute with
        | .error e =>
          (.error e,
           [.browsersCreate invocation_id, .stagehandInit kernelBrowser.cdp_ws_url,
            .pageGoto headcountUrl, .agentExecute headcountInstruction 20])
        | .ok _ =>
          match env.activePage with
          | none =>
            (.error ⟨"No active page found after agent execution"⟩,
             [.browsersCreate invocation_id, .stagehandInit kernelBrowser.cdp_ws_url,
              .pageGoto headcountUrl, .agentExecute headcountInstruction 20,
              .getActivePage])
          | some pdfPage =>
            match env.evaluateFetch with
            | .error e =>
              (.error e,
               [.browsersCreate invocation_id, .stagehandInit kernelBrowser.cdp_ws_url,
                .pageGoto headcountUrl, .agentExecute headcountInstruction 20,
                .getActivePage, .evaluateFetch pdfPage.url])
            | .ok _ =>
              match env.fsWriteFile with
              | .error e =>
                (.error e,
                 [.browsersCreate invocation_id, .stagehandInit kernelBrowser.cdp_ws_url,
                  .pageGoto headcountUrl, .agentExecute headcountInstruction 20,
                  .getActivePage, .evaluateFetch pdfPage.url,
                  .fsWriteFile kernelBrowser.session_id (remotePathOf pdfPage.url)])
              | .ok _ =>
                (.ok { pdfUrl := pdfPage.url,
                       filename := extractFilename pdfPage.url,
                       remotePath := remotePathOf pdfPage.url,
                       session_id := kernelBrowser.session_id },
                 [.browsersCreate invocation_id, .stagehandInit kernelBrowser.cdp_ws_url,
                  .pageGoto headcountUrl, .agentExecute headcountInstruction 20,
                  .getActivePage, .evaluateFetch pdfPage.url,
                  .fsWriteFile kernelBrowser.session_id (remotePathOf pdfPage.url)])

/-- Module-level effects at startup, in program order. -/
inductive StartupEffect where
  | kernelClientNew
  | appCreate (name : String)
  | registerAction (name : String)
  | browsersCreate (invocation_id : String)
deriving DecidableEq, Repr

/-- Embedding of the module top level (src/index.ts lines 1-35): construct
the Kernel client, create the app, read the two keys from the process
environment and throw if either is falsy (absent or empty), then
register the actions.  Session creation happens only inside handlers,
so no startup path emits a browsersCreate effect. -/
def startup (openai_api_key google_api_key : Option String) :
    Except Err (List String) × List StartupEffect :=
  if openai_api_key = none ∨ openai_api_key = some "" then
    (.error ⟨"OPENAI_API_KEY is not set"⟩,
     [.kernelClientNew, .appCreate "ts-stagehand-bb"])
  else if google_api_key = none ∨ google_api_key = some "" then
    (.error ⟨"GOOGLE_API_KEY is not set"⟩,
     [.kernelClientNew, .appCreate "ts-stagehand-bb"])
  else
    (.ok ["download-task", "headcount-task"],
     [.kernelClientNew, .appCreate "ts-stagehand-bb",
      .registerAction "download-task", .registerAction "headcount-task"])

/-- Recognizer for session-teardown effects. -/
def Effect.isDestroySession : Effect → Bool
  | .destroySession _ => true
  | _ => false

/-- Recognizer for CDP event-subscription effects. -/
def Effect.isCdpSubscribe : Effect → Bool
  | .cdpSubscribe _ => true
  | _ => false

/-- Recognizer for timed-wait effects. -/
def Effect.isWaitWithTimeout : Effect → Bool
  | .waitWithTimeout _ => true
  | _ => false

/-- Recognizer for completion-signal resolutions. -/
def Effect.isResolveCompletion : Effect → Bool
  | .resolveCompletion => true
  | _ => false

/-- Specification-side reading of the substring of a character list after
its last occurrence of sep: the longest suffix free of sep. -/
def suffixAfterLast (sep : Char) (l : List Char) : List Char :=
  (l.reverse.takeWhile (fun c => c ≠ sep)).reverse

/-- Specification-side reading of the substring of url after its last
slash. -/
def suffixAfterLastSlash (url : String) : String :=
  String.mk (suffixAfterLast '/' url.toList)

/-- Sample valid payload used by concrete runs. -/
def samplePayload : DownloadTaskInput :=
  { url := "https://example.com/start", instruction := "click the pdf link", maxSteps := 5 }

/-- Environment of a fully successful run. -/
def okEnv : Env :=
  { browsersCreate := .ok { session_id := "sess-1", cdp_ws_url := "ws-1", browser_live_view_url := "lv-1" },
    stagehandInit := .ok (), pageGoto := .ok (), agentExecute := .ok (),
    activePage := some { url := "https://example.com/files/plan.pdf" },
    evaluateFetch := .ok [1, 2, 3], fsWriteFile := .ok () }

/-- Environment in which page.goto throws. -/
def gotoFailEnv : Env := { okEnv with pageGoto := .error { message := "navigation failed" } }

/-- Environment in which the in-page fetch evaluation throws. -/
def fetchFailEnv : Env := { okEnv with evaluateFetch := .error { message := "fetch failed" } }

/-- Environment whose active page URL ends in a slash, so that no filename
can be derived from it. -/
def slashEndEnv : Env := { okEnv with activePage := some { url := "https://example.com/files/" } }

/-- Error of the first failing awaited step of a handler run, in the
program order both handlers share: browser creation, Stagehand
initialization, navigation, agent execution, active-page lookup
(throwing the no-active-page error when the lookup yields nothing),
fetch evaluation, remote write; none when every step succeeds. -/
def firstFailure (env : Env) : Option Err :=
  match env.browsersCreate with
  | .error e => some e
  | .ok _ =>
    match env.stagehandInit with
    | .error e => some e
    | .ok _ =>
      match env.pageGoto with
      | .error e => some e
      | .ok _ =>
        match env.agentExecute with
        | .error e => some e
        | .ok _ =>
          match env.activePage with
          | none => some { message := "No active page found after agent execution" }
          | some _ =>
            match env.evaluateFetch with
            | .error e => some e
            | .ok _ =>
              match env.fsWriteFile with
              | .error e => some e
              | .ok _ => none

theorem jsSplit_ne_nil (sep : Char) (l : List Char) : jsSplit sep l ≠ [] := by
  cases l with
  | nil => simp [jsSplit]
  | cons c cs =>
    simp only [jsSplit]
    split
    · simp
    · split <;> simp

theorem jsSplit_of_not_mem (sep : Char) (l : List Char) (h : sep ∉ l) : jsSplit sep l = [l] := by
  induction l with
  | nil => rfl
  | cons c cs ih =>
    have hc : c ≠ sep := fun hc => h (hc ▸ List.mem_cons_self c cs)
    have hcs : sep ∉ cs := fun hm => h (List.mem_cons_of_mem c hm)
    simp only [jsSplit, if_neg (fun hcc => hc hcc), ih hcs]

theorem jsSplit_sep_cons (sep : Char) (cs : List Char) :
    jsSplit sep (sep :: cs) = [] :: jsSplit sep cs := by
  simp [jsSplit]

theorem jsSplit_cons_of_ne (sep c : Char) (cs p : List Char) (ps : List (List Char))
    (hc : c ≠ sep) (hh : jsSplit sep cs = p :: ps) :
    jsSplit sep (c :: cs) = (c :: p) :: ps := by
  simp [jsSplit, hc, hh]

theorem jsSplit_length_of_mem (sep : Char) (l : List Char) (h : sep ∈ l) :
    2 ≤ (jsSplit sep l).length := by
  induction l with
  | nil => cases h
  | cons c cs ih =>
    by_cases hc : c = sep
    · subst hc
      rw [jsSplit_sep_cons, List.length_cons]
      have h1 : 0 < (jsSplit c cs).length :=
        List.length_pos.mpr (jsSplit_ne_nil c cs)
      omega
    · have hm : sep ∈ cs := by
        cases h with
        | head => exact absurd rfl hc
        | tail _ hm => exact hm
      cases hh : jsSplit sep cs with
      | nil => exact absurd hh (jsSplit_ne_nil sep cs)
      | cons p ps =>
        have h2 := ih hm
        rw [hh] at h2
        rw [jsSplit_cons_of_ne sep c cs p ps hc hh]
        simpa using h2

theorem getLastD_congr {α : Type} (l : List α) (a b : α) (h : l ≠ []) :
    l.getLastD a = l.getLastD b := by
  rw [List.getLastD_eq_getLast?, List.getLastD_eq_getLast?]
  cases hlast : l.getLast? with
  | none => exact absurd (List.getLast?_eq_none_iff.mp hlast) h
  | some y => rfl

theorem takeWhile_append_all {α : Type} (q : α → Bool) (xs ys : List α) :
    List.takeWhile q (xs ++ ys) =
      if xs.all q then xs ++ List.takeWhile q ys else List.takeWhile q xs := by
  induction xs with
  | nil => simp
  | cons x xs ih =>
    cases hx : q x with
    | false =>
      rw [List.cons_append, List.takeWhile_cons, List.takeWhile_cons, hx]
      have : ((x :: xs).all q) = false := by simp [List.all_cons, hx]
      rw [this]
      simp
    | true =>
      rw [List.cons_append, List.takeWhile_cons, List.takeWhile_cons, hx, List.all_cons, hx,
          Bool.true_and, ih]
      by_cases hall : xs.all q <;> simp [hall]

theorem suffixAfterLast_of_not_mem (sep : Char) (l : List Char) (h : sep ∉ l) :
    suffixAfterLast sep l = l := by
  unfold suffixAfterLast
  rw [List.takeWhile_eq_self_iff.mpr, List.reverse_reverse]
  intro x hx
  have : x ∈ l := List.mem_reverse.mp hx
  simp only [ne_eq, decide_eq_true_eq]
  exact fun hxe => h (hxe ▸ this)

theorem suffixAfterLast_sep_cons (sep : Char) (cs : List Char) :
    suffixAfterLast sep (sep :: cs) = suffixAfterLast sep cs := by
  unfold suffixAfterLast
  rw [List.reverse_cons, takeWhile_append_all]
  by_cases hall : cs.reverse.all (fun c => decide ¬(c = sep))
  · rw [if_pos hall]
    have h1 : List.takeWhile (fun c => decide ¬(c = sep)) [sep] = [] := by
      simp [List.takeWhile_cons]
    rw [h1, List.append_nil]
    have h2 : List.takeWhile (fun c => decide ¬(c = sep)) cs.reverse = cs.reverse := by
      apply List.takeWhile_eq_self_iff.mpr
      exact List.all_eq_true.mp hall
    rw [h2]
  · rw [if_neg hall]

theorem suffixAfterLast_cons_of_mem (sep c : Char) (cs : List Char) (h : sep ∈ cs) :
    suffixAfterLast sep (c :: cs) = suffixAfterLast sep cs := by
  unfold suffixAfterLast
  rw [List.reverse_cons, takeWhile_append_all]
  have hall : (cs.reverse.all (fun c => decide ¬(c = sep))) = false := by
    apply Bool.eq_false_iff.mpr
    intro hcontra
    have := (List.all_eq_true.mp hcontra) sep (List.mem_reverse.mpr h)
    simp at this
  rw [hall]
  simp

theorem jsSplit_getLastD (sep : Char) (l : List Char) :
    (jsSplit sep l).getLastD [] = suffixAfterLast sep l := by
  induction l with
  | nil => simp [jsSplit, suffixAfterLast]
  | cons c cs ih =>
    by_cases hc : c = sep
    · subst hc
      rw [jsSplit_sep_cons, List.getLastD_cons, suffixAfterLast_sep_cons]
      exact ih
    · by_cases hm : sep ∈ cs
      · have hlen := jsSplit_length_of_mem sep cs hm
        cases hh : jsSplit sep cs with
        | nil => exact absurd hh (jsSplit_ne_nil sep cs)
        | cons p ps =>
          rw [hh] at hlen
          have hps : ps ≠ [] := by
            intro hp
            subst hp
            simp at hlen
          rw [jsSplit_cons_of_ne sep c cs p ps hc hh, List.getLastD_cons,
              suffixAfterLast_cons_of_mem sep c cs hm, ← ih, hh, List.getLastD_cons]
          exact getLastD_congr ps (c :: p) p hps
      · have hnm : sep ∉ c :: cs := by
          intro hx
          cases hx with
          | head => exact hc rfl
          | tail _ hx => exact hm hx
        have hstep : jsSplit sep (c :: cs) = [c :: cs] := by
          simp [jsSplit, hc, jsSplit_of_not_mem sep cs hm]
        rw [hstep, suffixAfterLast_of_not_mem sep (c :: cs) hnm]
        rfl

theorem mk_eq_empty_iff (l : List Char) : String.mk l = "" ↔ l = [] := by
  constructor
  · intro h
    have := congrArg String.data h
    simpa using this
  · intro h
    subst h
    rfl

/-- C10: for every PDF page URL, the returned filename equals the
substring of the URL after its last slash when that substring is
non-empty, and otherwise equals download.pdf; and the returned
remotePath always equals /tmp/downloads/ followed by that filename. -/
theorem extractFilename_and_remotePath_spec (url : String) :
    extractFilename url =
      (if suffixAfterLastSlash url = "" then "download.pdf" else suffixAfterLastSlash url) ∧
    remotePathOf url = "/tmp/downloads/" ++ extractFilename url := by
  constructor
  · unfold extractFilename suffixAfterLastSlash
    rw [jsSplit_getLastD]
    by_cases h : suffixAfterLast '/' url.toList = []
    · rw [if_pos h, if_pos ((mk_eq_empty_iff _).mpr h)]
    · rw [if_neg h, if_neg (fun hc => h ((mk_eq_empty_iff _).mp hc))]
  · show DOWNLOAD_DIR ++ "/" ++ extractFilename url = "/tmp/downloads/" ++ extractFilename url
    rw [show DOWNLOAD_DIR ++ "/" = "/tmp/downloads/" from rfl]

/-- C9: the headcount-task output does not depend on the query input;
for any two payloads (including an absent one) the handler behaves
identically under the same external outcomes, because the query field is
read but never used and the navigation target, instruction and step
budget are hardcoded. -/
theorem headcountTask_query_noninterference (invocation_id : String)
    (payload₁ payload₂ : Option SearchQueryInput) (env : Env) :
    headcountTask invocation_id payload₁ env = headcountTask invocation_id payload₂ env := rfl

/-- C6: if either required credential is absent (or empty, which is
equally falsy) in the process environment at startup, startup throws the
corresponding error immediately, with no action registered and no
remote browser session created (the startup trace contains only the
client and app construction, and startup never emits a session-creation
effect on any path). -/
theorem startup_missing_key_fails (openai_api_key google_api_key : Option String)
    (h : openai_api_key = none ∨ openai_api_key = some "" ∨
         google_api_key = none ∨ google_api_key = some "") :
    ((startup openai_api_key google_api_key).fst =
        .error { message := "OPENAI_API_KEY is not set" } ∨
     (startup openai_api_key google_api_key).fst =
        .error { message := "GOOGLE_API_KEY is not set" }) ∧
    (startup openai_api_key google_api_key).snd =
      [.kernelClientNew, .appCreate "ts-stagehand-bb"] := by
  by_cases h1 : openai_api_key = none ∨ openai_api_key = some ""
  · rw [startup, if_pos h1]
    exact ⟨Or.inl rfl, rfl⟩
  · have h2 : google_api_key = none ∨ google_api_key = some "" := by
      rcases h with h | h | h | h
      · exact absurd (Or.inl h) h1
      · exact absurd (Or.inr h) h1
      · exact Or.inl h
      · exact Or.inr h
    rw [startup, if_neg h1, if_pos h2]
    exact ⟨Or.inr rfl, rfl⟩

theorem startup_missing_key_fails_witness :
    ((startup none (some "g-key")).fst = .error { message := "OPENAI_API_KEY is not set" } ∨
     (startup none (some "g-key")).fst = .error { message := "GOOGLE_API_KEY is not set" }) ∧
    (startup none (some "g-key")).snd = [.kernelClientNew, .appCreate "ts-stagehand-bb"] :=
  startup_missing_key_fails none (some "g-key") (Or.inl rfl)

/-- C8: a download-task invocation whose payload is absent, or whose
url or instruction is the empty string, or whose maxSteps is zero, is
rejected with the error url, instruction, and maxSteps are required, and
the trace is empty: no browser session is created and no other side
effect occurs. -/
theorem downloadTask_invalid_payload_rejected (invocation_id : String)
    (payload : Option DownloadTaskInput) (env : Env)
    (h : payload = none ∨
         ∃ p, payload = some p ∧ (p.url = "" ∨ p.instruction = "" ∨ p.maxSteps = 0)) :
    downloadTask invocation_id payload env =
      (.error { message := "url, instruction, and maxSteps are required" }, []) := by
  rcases h with h | ⟨p, hp, hv⟩
  · subst h
    rfl
  · subst hp
    rw [downloadTask, if_pos hv]

theorem downloadTask_invalid_payload_rejected_witness :
    downloadTask "inv-1" (some ⟨"https://example.com/start", "click the pdf link", 0⟩) okEnv =
      (.error { message := "url, instruction, and maxSteps are required" }, []) :=
  downloadTask_invalid_payload_rejected "inv-1"
    (some ⟨"https://example.com/start", "click the pdf link", 0⟩) okEnv
    (Or.inr ⟨_, rfl, Or.inr (Or.inr rfl)⟩)

theorem downloadTask_absent_effects (invocation_id : String)
    (payload : Option DownloadTaskInput) (env : Env) :
    ((downloadTask invocation_id payload env).snd).countP Effect.isDestroySession = 0 ∧
    ((downloadTask invocation_id payload env).snd).countP Effect.isCdpSubscribe = 0 ∧
    ((downloadTask invocation_id payload env).snd).countP Effect.isWaitWithTimeout = 0 ∧
    ((downloadTask invocation_id payload env).snd).countP Effect.isResolveCompletion = 0 := by
  obtain ⟨bc, si, pg, ae, ap, ef, fw⟩ := env
  cases payload with
  | none => simp [downloadTask]
  | some p =>
    by_cases hv : p.url = "" ∨ p.instruction = "" ∨ p.maxSteps = 0 <;>
    cases bc <;> cases si <;> cases pg <;> cases ae <;> cases ap <;> cases ef <;> cases fw <;>
      simp [downloadTask, hv, Effect.isDestroySession, Effect.isCdpSubscribe,
            Effect.isWaitWithTimeout, Effect.isResolveCompletion]

theorem headcountTask_absent_effects (invocation_id : String)
    (payload : Option SearchQueryInput) (env : Env) :
    ((headcountTask invocation_id payload env).snd).countP Effect.isDestroySession = 0 ∧
    ((headcountTask invocation_id payload env).snd).countP Effect.isCdpSubscribe = 0 ∧
    ((headcountTask invocation_id payload env).snd).countP Effect.isWaitWithTimeout = 0 ∧
    ((headcountTask invocation_id payload env).snd).countP Effect.isResolveCompletion = 0 := by
  obtain ⟨bc, si, pg, ae, ap, ef, fw⟩ := env
  cases bc <;> cases si <;> cases pg <;> cases ae <;> cases ap <;> cases ef <;> cases fw <;>
    simp [headcountTask, Effect.isDestroySession, Effect.isCdpSubscribe,
          Effect.isWaitWithTimeout, Effect.isResolveCompletion]

/-- C1 counterexample: in a run where navigation throws, the exception is
not caught at any orchestrator boundary: the task result is the
propagated error itself, not a success-false record (no such record type
exists), and the trace ends at the failed navigation with no cleanup
effect of any kind. -/
theorem downloadTask_gotoFail_uncaught :
    downloadTask "inv-1" (some samplePayload) gotoFailEnv =
      (.error { message := "navigation failed" },
       [.browsersCreate "inv-1", .stagehandInit "ws-1",
        .pageGoto "https://example.com/start"]) := rfl

/-- C1 as amended: in both task handlers, whatever step fails first
(session creation, automation-context initialization, navigation, agent
execution, active-page lookup, remote fetch, or remote write), the
exception propagates out of the handler uncaught as the task result; no
cleanup ever executes (zero teardown effects on every exit path of
either handler), and no success-false result record is produced. -/
theorem task_exception_propagates_uncaught (invocation_id : String)
    (p : DownloadTaskInput) (payload2 : Option SearchQueryInput) (env : Env)
    (hu : p.url ≠ "") (hi : p.instruction ≠ "") (hm : p.maxSteps ≠ 0) :
    (∀ e, firstFailure env = some e →
       (downloadTask invocation_id (some p) env).fst = .error e ∧
       (headcountTask invocation_id payload2 env).fst = .error e) ∧
    ((downloadTask invocation_id (some p) env).snd).countP Effect.isDestroySession = 0 ∧
    ((headcountTask invocation_id payload2 env).snd).countP Effect.isDestroySession = 0 := by
  refine ⟨?_, (downloadTask_absent_effects invocation_id (some p) env).1,
          (headcountTask_absent_effects invocation_id payload2 env).1⟩
  have hcond : ¬(p.url = "" ∨ p.instruction = "" ∨ p.maxSteps = 0) := by
    rintro (h | h | h)
    exacts [hu h, hi h, hm h]
  obtain ⟨bc, si, pg, ae, ap, ef, fw⟩ := env
  cases bc <;> cases si <;> cases pg <;> cases ae <;> cases ap <;> cases ef <;> cases fw <;>
    simp [downloadTask, headcountTask, firstFailure, hcond]

theorem task_exception_propagates_uncaught_witness :
    (downloadTask "inv-1" (some samplePayload) gotoFailEnv).fst =
      .error { message := "navigation failed" } ∧
    (headcountTask "inv-1" none gotoFailEnv).fst =
      .error { message := "navigation failed" } ∧
    ((downloadTask "inv-1" (some samplePayload) gotoFailEnv).snd).countP
        Effect.isDestroySession = 0 ∧
    ((headcountTask "inv-1" none gotoFailEnv).snd).countP Effect.isDestroySession = 0 := by
  have h := task_exception_propagates_uncaught "inv-1" samplePayload none gotoFailEnv
    (by decide) (by decide) (by decide)
  exact ⟨(h.1 { message := "navigation failed" } rfl).1,
         (h.1 { message := "navigation failed" } rfl).2, h.2.1, h.2.2⟩

/-- C2 counterexample: a fully successful download-task run produces its
result with zero session-teardown invocations in its trace, refuting the
claim that teardown is invoked exactly once per execution. -/
theorem downloadTask_success_zero_teardowns :
    ((downloadTask "inv-1" (some samplePayload) okEnv).snd).countP
        Effect.isDestroySession = 0 ∧
    (downloadTask "inv-1" (some samplePayload) okEnv).fst =
      .ok { pdfUrl := "https://example.com/files/plan.pdf", filename := "plan.pdf",
            remotePath := "/tmp/downloads/plan.pdf", session_id := "sess-1" } :=
  ⟨rfl, rfl⟩

/-- C2 as amended: session teardown is never invoked by either task
handler: on every exit path the number of teardown effects in the trace
is zero, and the remote session is left alive (its identifier is
returned to the caller on success). -/
theorem task_teardown_never_invoked (invocation_id : String)
    (payload : Option DownloadTaskInput) (payload2 : Option SearchQueryInput) (env : Env) :
    ((downloadTask invocation_id payload env).snd).countP Effect.isDestroySession = 0 ∧
    ((headcountTask invocation_id payload2 env).snd).countP Effect.isDestroySession = 0 :=
  ⟨(downloadTask_absent_effects invocation_id payload env).1,
   (headcountTask_absent_effects invocation_id payload2 env).1⟩

/-- C3 counterexample: the shared filename/completed record and its
resolve-once completion signal do not exist in the code: a complete run
performs zero download-event subscriptions, so no download-progress
event is ever delivered to the program, and zero completion-signal
resolutions occur. -/
theorem downloadTask_no_completion_machinery :
    ((downloadTask "inv-1" (some samplePayload) okEnv).snd).countP
        Effect.isCdpSubscribe = 0 ∧
    ((downloadTask "inv-1" (some samplePayload) okEnv).snd).countP
        Effect.isResolveCompletion = 0 :=
  ⟨rfl, rfl⟩

/-- C3 as amended: neither handler maintains a download completion
signal: the number of completion-signal resolutions in any execution is
zero (the PDF is fetched synchronously by in-page evaluation instead of
listening for download events). -/
theorem task_completion_resolved_zero_times (invocation_id : String)
    (payload : Option DownloadTaskInput) (payload2 : Option SearchQueryInput) (env : Env) :
    ((downloadTask invocation_id payload env).snd).countP Effect.isResolveCompletion = 0 ∧
    ((headcountTask invocation_id payload2 env).snd).countP Effect.isResolveCompletion = 0 :=
  ⟨(downloadTask_absent_effects invocation_id payload env).2.2.2,
   (headcountTask_absent_effects invocation_id payload2 env).2.2.2⟩

/-- C4 counterexample: there is no download-event timeout window, and a
failure of the in-page fetch makes the task complete with a thrown
error rather than a soft success: no download event occurred (none can),
yet the result is the propagated error and the trace contains zero
timed waits. -/
theorem downloadTask_fetchFail_throws :
    (downloadTask "inv-1" (some samplePayload) fetchFailEnv).fst =
      .error { message := "fetch failed" } ∧
    ((downloadTask "inv-1" (some samplePayload) fetchFailEnv).snd).countP
        Effect.isWaitWithTimeout = 0 :=
  ⟨rfl, rfl⟩

/-- C4 as amended: no timed wait for a download event exists in either
handler (zero timeout-wait effects in any execution); the result record
carries no success flag or optional downloadedFilePath, and a failing
step yields a propagated error instead of a degraded success. -/
theorem task_no_timeout_window (invocation_id : String)
    (payload : Option DownloadTaskInput) (payload2 : Option SearchQueryInput) (env : Env) :
    ((downloadTask invocation_id payload env).snd).countP Effect.isWaitWithTimeout = 0 ∧
    ((headcountTask invocation_id payload2 env).snd).countP Effect.isWaitWithTimeout = 0 :=
  ⟨(downloadTask_absent_effects invocation_id payload env).2.2.1,
   (headcountTask_absent_effects invocation_id payload2 env).2.2.1⟩

/-- C5 counterexample: a complete run's trace shows the agent executing
with no download event listener ever registered: the trace contains the
agent-execution effect and not a single subscription effect, before or
after it. -/
theorem downloadTask_agent_runs_unarmed :
    (downloadTask "inv-2" (some samplePayload) okEnv).snd =
      [.browsersCreate "inv-2", .stagehandInit "ws-1",
       .pageGoto "https://example.com/start", .agentExecute "click the pdf link" 5,
       .getActivePage, .evaluateFetch "https://example.com/files/plan.pdf",
       .fsWriteFile "sess-1" "/tmp/downloads/plan.pdf"] := rfl

/-- C5 as amended: no download event listener is ever registered on the
debugging connection by either handler: the number of subscription
effects in any execution is zero, so in particular none precedes the
agent run. -/
theorem task_no_listener_registration (invocation_id : String)
    (payload : Option DownloadTaskInput) (payload2 : Option SearchQueryInput) (env : Env) :
    ((downloadTask invocation_id payload env).snd).countP Effect.isCdpSubscribe = 0 ∧
    ((headcountTask invocation_id payload2 env).snd).countP Effect.isCdpSubscribe = 0 :=
  ⟨(downloadTask_absent_effects invocation_id payload env).2.1,
   (headcountTask_absent_effects invocation_id payload2 env).2.1⟩

theorem extractFilename_of_empty_suffix (url : String)
    (h : suffixAfterLastSlash url = "") :
    extractFilename url = "download.pdf" ∧ remotePathOf url = "/tmp/downloads/download.pdf" := by
  have hl : suffixAfterLast '/' url.toList = [] :=
    (mk_eq_empty_iff _).mp h
  have he : extractFilename url = "download.pdf" := by
    unfold extractFilename
    rw [jsSplit_getLastD, if_pos hl]
  refine ⟨he, ?_⟩
  unfold remotePathOf
  rw [he]
  rfl

/-- C7 counterexample: when the active page URL ends in a slash (the one
case in which no filename can be determined from it), the handler does
not record a filename-undeterminable error and does not skip retrieval:
it substitutes download.pdf, writes the file to the remote filesystem,
and returns a success record. -/
theorem downloadTask_empty_suffix_still_retrieves :
    (downloadTask "inv-1" (some samplePayload) slashEndEnv).fst =
      .ok { pdfUrl := "https://example.com/files/", filename := "download.pdf",
            remotePath := "/tmp/downloads/download.pdf", session_id := "sess-1" } ∧
    Effect.fsWriteFile "sess-1" "/tmp/downloads/download.pdf" ∈
      (downloadTask "inv-1" (some samplePayload) slashEndEnv).snd :=
  ⟨rfl, by decide⟩

/-- C7 as amended: there is no filename-undeterminable error path and no
download-completion event at all: whenever the active page URL yields an
empty suffix after its last slash, the handler falls back to the name
download.pdf and still performs the remote write, returning a success
record. -/
theorem downloadTask_fallback_filename_still_retrieves (invocation_id : String)
    (p : DownloadTaskInput) (env : Env) (b : KernelBrowser) (page : Page) (data : List Nat)
    (hu : p.url ≠ "") (hi : p.instruction ≠ "") (hm : p.maxSteps ≠ 0)
    (hb : env.browsersCreate = .ok b) (hs : env.stagehandInit = .ok ())
    (hg : env.pageGoto = .ok ()) (ha : env.agentExecute = .ok ())
    (hp : env.activePage = some page) (he : env.evaluateFetch = .ok data)
    (hw : env.fsWriteFile = .ok ()) (hsuffix : suffixAfterLastSlash page.url = "") :
    (downloadTask invocation_id (some p) env).fst =
      .ok { pdfUrl := page.url, filename := "download.pdf",
            remotePath := "/tmp/downloads/download.pdf", session_id := b.session_id } ∧
    Effect.fsWriteFile b.session_id "/tmp/downloads/download.pdf" ∈
      (downloadTask invocation_id (some p) env).snd := by
  have hcond : ¬(p.url = "" ∨ p.instruction = "" ∨ p.maxSteps = 0) := by
    rintro (h | h | h)
    exacts [hu h, hi h, hm h]
  obtain ⟨hfn, hrp⟩ := extractFilename_of_empty_suffix page.url hsuffix
  constructor
  · simp only [downloadTask, if_neg hcond, hb, hs, hg, ha, hp, he, hw, hfn, hrp]
  · simp only [downloadTask, if_neg hcond, hb, hs, hg, ha, hp, he, hw, hrp]
    simp

theorem downloadTask_fallback_filename_still_retrieves_witness :
    (downloadTask "inv-1" (some samplePayload) slashEndEnv).fst =
      .ok { pdfUrl := "https://example.com/files/", filename := "download.pdf",
            remotePath := "/tmp/downloads/download.pdf", session_id := "sess-1" } ∧
    Effect.fsWriteFile "sess-1" "/tmp/downloads/download.pdf" ∈
      (downloadTask "inv-1" (some samplePayload) slashEndEnv).snd :=
  downloadTask_fallback_filename_still_retrieves "inv-1" samplePayload slashEndEnv
    ⟨"sess-1", "ws-1", "lv-1"⟩ ⟨"https://example.com/files/"⟩ [1, 2, 3]
    (by decide) (by decide) (by decide) rfl rfl rfl rfl rfl rfl rfl (by decide)
